import Mathlib

/-!
Shallow embedding of the ImageOptimizer repository's storage core:
the credential vault (`storage/models.py`), the default-provider
invariant (`StorageProvider.save`, `StorageProviderViewSet.set_default`),
backend construction and the factory (`storage/backends.py`), serializer
validation (`storage/serializers.py`), and the image upload/delete
orchestration (`images/views.py`).

External collaborators (Fernet, `json`, boto3/paramiko clients, PIL) are
modelled by executable Lean functions that realise their documented
contracts; everything written in the repository itself is translated
from the source.
-/

namespace ImageOptimizer

deriving instance DecidableEq for Except

/-- Errors raised by the Python code.  Constructors are named after the
Python exception classes the source raises or lets propagate; the spec's
taxonomy maps onto them (ConfigurationError ↦ `valueError`/`keyError`/
`validationError`, DecryptionError ↦ `invalidToken`,
UnsupportedProviderError ↦ the `valueError` raised by the factory).
`validationError` carries the field name and the list of missing keys from
which the source builds its message string. -/
inductive PyError where
  | keyError (k : String)
  | valueError (msg : String)
  | invalidToken
  | jsonDecodeError
  | validationError (field : String) (missing : List String)
  | fileNotFoundError
  | connectivityError
  | clientError (code : Nat)
  deriving DecidableEq, Repr

/-- A JSON scalar value, as found in credential / config dictionaries. -/
inductive CVal where
  | str (s : String)
  | num (i : Int)
  deriving DecidableEq, Repr

/-- Python dictionaries with string keys, as ordered association lists
(insertion order, which both Python dicts and `json` preserve). -/
abbrev Dict := List (String × CVal)

/-- `d[k]` as `Option`: `dget d k = some v` iff key `k` is present. -/
def dget (d : Dict) (k : String) : Option CVal :=
  match d with
  | [] => none
  | (k', v) :: t => if k' = k then some v else dget t k

/-- `d.get(k, default)`. -/
def dgetD (d : Dict) (k : String) (v₀ : CVal) : CVal :=
  (dget d k).getD v₀

/-- `d[k]` raising `KeyError` when absent. -/
def ditem (d : Dict) (k : String) : Except PyError CVal :=
  match dget d k with
  | some v => .ok v
  | none => .error (.keyError k)

/-- Symbols of the vault's byte-stream alphabet: the canonical encoding
of a credential map (our model of `json.dumps(...).encode()`) is a list
of symbols, either a tag/length number or a character. -/
inductive Sym where
  | nat (n : Nat)
  | ch (c : Char)
  deriving DecidableEq, Repr

/-- Injective code of a symbol, used by the model's authentication tag. -/
def symCode : Sym → Nat
  | .nat n => Nat.pair 0 n
  | .ch c => Nat.pair 1 c.toNat

/-- Authentication tag over a symbol stream (an injective fold, playing
the role of Fernet's HMAC: any change to the stream changes the tag). -/
def fernetHash : List Sym → Nat
  | [] => 0
  | s :: t => Nat.pair (symCode s) (fernetHash t) + 1

/-- Injective code of the symmetric key string. -/
def keyCode (k : String) : Nat :=
  fernetHash (k.data.map Sym.ch)

/-- Model of `Fernet(key).encrypt`: seals a symbol stream under a key by
prefixing the key's code and the stream's authentication tag.  Realises
Fernet's contract (deterministic inverse of `fernetDecrypt`, tamper
evident); secrecy is outside the model. -/
def fernetEncrypt (key : String) (msg : List Sym) : List Sym :=
  .nat (keyCode key) :: .nat (fernetHash msg) :: msg

/-- Model of `Fernet(key).decrypt`: `none` models raising `InvalidToken`
(any key mismatch, tag mismatch or malformed token). -/
def fernetDecrypt (key : String) (ct : List Sym) : Option (List Sym) :=
  match ct with
  | .nat kc :: .nat h :: rest =>
      if kc = keyCode key ∧ h = fernetHash rest then some rest else none
  | _ => none

/-- Canonical encoding of a string: length, then its characters.
Models the `json` layer's canonical byte encoding of a string value. -/
def encStr (s : String) : List Sym :=
  .nat s.data.length :: s.data.map .ch

/-- Canonical encoding of a JSON scalar. -/
def encVal : CVal → List Sym
  | .str s => .nat 0 :: encStr s
  | .num i => [.nat 1, .nat (if i < 0 then 1 else 0), .nat i.natAbs]

/-- Concatenated encodings of a dictionary's entries, in order. -/
def encEntries (d : Dict) : List Sym :=
  d.foldr (fun kv acc => encStr kv.1 ++ encVal kv.2 ++ acc) []

/-- Model of `json.dumps(credentials_dict).encode()`: entry count, then
each key/value pair in order. -/
def dumps (d : Dict) : List Sym :=
  .nat d.length :: encEntries d

/-- Consume `n` character symbols from the stream. -/
def takeChars : Nat → List Sym → Option (List Char × List Sym)
  | 0, rest => some ([], rest)
  | n + 1, .ch c :: rest =>
      match takeChars n rest with
      | some (cs, r) => some (c :: cs, r)
      | none => none
  | _ + 1, _ => none

/-- Parse one encoded string. -/
def parseStr (l : List Sym) : Option (String × List Sym) :=
  match l with
  | .nat n :: rest =>
      match takeChars n rest with
      | some (cs, r) => some (String.mk cs, r)
      | none => none
  | _ => none

/-- Parse one encoded JSON scalar. -/
def parseVal (l : List Sym) : Option (CVal × List Sym) :=
  match l with
  | .nat 0 :: rest =>
      match parseStr rest with
      | some (s, r) => some (.str s, r)
      | none => none
  | .nat 1 :: .nat sg :: .nat a :: rest =>
      some (.num (if sg = 1 then -(a : Int) else (a : Int)), rest)
  | _ => none

/-- Parse `n` key/value entries. -/
def parseEntries : Nat → List Sym → Option (Dict × List Sym)
  | 0, rest => some ([], rest)
  | n + 1, l =>
      match parseStr l with
      | some (k, r₁) =>
          match parseVal r₁ with
          | some (v, r₂) =>
              match parseEntries n r₂ with
              | some (d, r₃) => some ((k, v) :: d, r₃)
              | none => none
          | none => none
      | none => none

/-- Model of `json.loads`: inverse of `dumps`; `none` models raising
`json.JSONDecodeError` (trailing data included). -/
def loads (l : List Sym) : Option Dict :=
  match l with
  | .nat n :: rest =>
      match parseEntries n rest with
      | some (d, []) => some d
      | _ => none
  | _ => none

/-- Truthiness of `settings.STORAGE_ENCRYPTION_KEY`: the source's
`if not settings.STORAGE_ENCRYPTION_KEY` is true when the setting is
`None` or the empty string. -/
def keyFalsy : Option String → Bool
  | none => true
  | some s => s.isEmpty

/-- `StorageProvider.set_credentials` (storage/models.py lines 40-47):
raises `ValueError` when the key setting is falsy, otherwise stores
`Fernet(key).encrypt(json.dumps(credentials_dict).encode())`.  Returns
the new `encrypted_credentials` field value. -/
def set_credentials (key : Option String) (credentials_dict : Dict) :
    Except PyError (List Sym) :=
  match key with
  | none => .error (.valueError "STORAGE_ENCRYPTION_KEY not configured")
  | some k =>
      if k.isEmpty then .error (.valueError "STORAGE_ENCRYPTION_KEY not configured")
      else .ok (fernetEncrypt k (dumps credentials_dict))

/-- `StorageProvider.get_credentials` (storage/models.py lines 49-56):
raises `ValueError` when the key setting is falsy, otherwise
`json.loads(Fernet(key).decrypt(self.encrypted_credentials))`. -/
def get_credentials (key : Option String) (encrypted_credentials : List Sym) :
    Except PyError Dict :=
  match key with
  | none => .error (.valueError "STORAGE_ENCRYPTION_KEY not configured")
  | some k =>
      if k.isEmpty then .error (.valueError "STORAGE_ENCRYPTION_KEY not configured")
      else
        match fernetDecrypt k encrypted_credentials with
        | none => .error .invalidToken
        | some m =>
            match loads m with
            | some d => .ok d
            | none => .error .jsonDecodeError

/-! ## Provider registry: `StorageProvider.save` and `set_default` -/

/-- A `StorageProvider` row (storage/models.py lines 8-35). -/
structure StorageProvider where
  pk : Nat
  user : Nat
  name : String
  provider_type : String
  is_default : Bool
  is_active : Bool
  config : Dict
  encrypted_credentials : List Sym
  deriving DecidableEq, Repr

/-- The queryset update inside `StorageProvider.save` (storage/models.py
lines 60-64): clear `is_default` on every other provider of the same
user (`filter(user=self.user, is_default=True).exclude(pk=self.pk)
.update(is_default=False)`). -/
def clearOtherDefaults (self : StorageProvider) (db : List StorageProvider) :
    List StorageProvider :=
  db.map fun r =>
    if r.user = self.user ∧ r.is_default = true ∧ r.pk ≠ self.pk then
      { r with is_default := false }
    else r

/-- `super().save()`: write `self` into the table, replacing the row with
its primary key if present, inserting otherwise. -/
def dbUpsert (self : StorageProvider) (db : List StorageProvider) :
    List StorageProvider :=
  if db.any (fun r => r.pk == self.pk) then
    db.map fun r => if r.pk = self.pk then self else r
  else db ++ [self]

/-- `StorageProvider.save` (storage/models.py lines 58-65). -/
def StorageProvider.save (self : StorageProvider) (db : List StorageProvider) :
    List StorageProvider :=
  dbUpsert self (if self.is_default then clearOtherDefaults self db else db)

/-- `StorageProviderViewSet.set_default` (storage/views.py lines 30-38):
`get_object` resolves `pk` inside the user-scoped queryset, then sets
`is_default = True` and saves.  A 404 (no such row for this user) leaves
the table unchanged. -/
def set_default (db : List StorageProvider) (userId pk : Nat) :
    List StorageProvider :=
  match db.find? (fun r => r.pk == pk && r.user == userId) with
  | some sp => StorageProvider.save { sp with is_default := true } db
  | none => db

/-- A provider write: a model `save` (with whatever field values the
caller set, `is_default` included) or the `set_default` view action. -/
inductive ProviderOp where
  | save (p : StorageProvider)
  | setDefault (user pk : Nat)
  deriving Repr

/-- Apply one provider write to the table. -/
def applyOp (db : List StorageProvider) : ProviderOp → List StorageProvider
  | .save p => p.save db
  | .setDefault u pk => set_default db u pk

/-- Apply a sequence of provider writes. -/
def applyOps (db : List StorageProvider) (ops : List ProviderOp) :
    List StorageProvider :=
  ops.foldl applyOp db

/-- Does row `r` count as a default provider of user `u`? -/
def isDefaultFor (u : Nat) (r : StorageProvider) : Bool :=
  r.user == u && r.is_default

/-- Number of default providers of user `u`. -/
def defaultCount (db : List StorageProvider) (u : Nat) : Nat :=
  db.countP (isDefaultFor u)

/-- Primary keys of the table. -/
def pks (db : List StorageProvider) : List Nat :=
  db.map StorageProvider.pk

/-- Table well-formedness: primary keys are unique and every user has at
most one default provider. -/
def DBWF (db : List StorageProvider) : Prop :=
  (pks db).Nodup ∧ ∀ u, defaultCount db u ≤ 1

/-! ## Serializer validation (storage/serializers.py) -/

/-- Required credential and config keys per provider type, from the
`if`/`elif` chain in `StorageProviderSerializer.validate`
(storage/serializers.py lines 53-66); `none` for an unrecognized type,
for which `validate` returns the data unchecked. -/
def requiredKeys : String → Option (List String × List String)
  | "s3" => some (["access_key_id", "secret_access_key"], ["bucket", "region"])
  | "azure" => some (["account_name", "account_key"], ["container"])
  | "gcs" => some (["credentials_json"], ["bucket"])
  | "sftp" => some (["host", "username"], ["remote_path"])
  | _ => none

/-- `StorageProviderSerializer.validate` (storage/serializers.py lines
47-84) on a create (no instance): `provider_type` is the submitted value
(or `none` when absent), `credentials` the submitted credentials map (`{}`
when absent) and `config` the submitted config map (`{}` when absent).
Credential keys are checked only when the credentials map is non-empty
(`if credentials:`); the error carries the list of missing keys from
which the source's message string is built. -/
def serializerValidate (provider_type : Option String)
    (credentials : Dict) (config : Dict) : Except PyError Unit :=
  match provider_type with
  | none => .ok ()
  | some t =>
      match requiredKeys t with
      | none => .ok ()
      | some (required_creds, required_config) =>
          let missing_creds :=
            required_creds.filter fun c => (dget credentials c).isNone
          if credentials ≠ [] ∧ missing_creds ≠ [] then
            .error (.validationError "credentials" missing_creds)
          else
            let missing_config :=
              required_config.filter fun c => (dget config c).isNone
            if missing_config ≠ [] then
              .error (.validationError "config" missing_config)
            else .ok ()

/-! ## Backend constructors (storage/backends.py) -/

/-- `S3Backend` state after `__init__` (storage/backends.py 41-52). -/
structure S3Backend where
  bucket : CVal
  region : CVal
  access_key_id : CVal
  secret_access_key : CVal
  deriving DecidableEq, Repr

/-- `S3Backend.__init__`: `config['bucket']` (KeyError when absent),
`config.get('region', 'us-east-1')`, then the two credential subscripts
in the order boto3's call evaluates them. -/
def S3Backend.init (credentials config : Dict) : Except PyError S3Backend := do
  let bucket ← ditem config "bucket"
  let region := dgetD config "region" (.str "us-east-1")
  let access_key_id ← ditem credentials "access_key_id"
  let secret_access_key ← ditem credentials "secret_access_key"
  return ⟨bucket, region, access_key_id, secret_access_key⟩

/-- `AzureBlobBackend` state after `__init__` (backends.py 86-96). -/
structure AzureBlobBackend where
  container : CVal
  account_name : CVal
  account_key : CVal
  deriving DecidableEq, Repr

/-- `AzureBlobBackend.__init__`. -/
def AzureBlobBackend.init (credentials config : Dict) :
    Except PyError AzureBlobBackend := do
  let container ← ditem config "container"
  let account_name ← ditem credentials "account_name"
  let account_key ← ditem credentials "account_key"
  return ⟨container, account_name, account_key⟩

/-- Truthiness of an optional dictionary value (`if self.password:`). -/
def cvTruthy : Option CVal → Bool
  | none => false
  | some (.str s) => !s.isEmpty
  | some (.num i) => i != 0

/-- Whitespace skipping for the model of `json.loads` on text. -/
def skipWs : List Char → List Char
  | c :: t => if c = ' ' ∨ c = '\n' ∨ c = '\t' ∨ c = '\r' then skipWs t else c :: t
  | [] => []

/-- Scan a JSON string body up to the closing quote (escapes are not
modelled; service-account documents use plain strings). -/
def scanStrBody : List Char → Option (List Char × List Char)
  | [] => none
  | '"' :: t => some ([], t)
  | c :: t =>
      match scanStrBody t with
      | some (cs, r) => some (c :: cs, r)
      | none => none

/-- Scan a run of decimal digits. -/
def scanDigits : List Char → List Char × List Char
  | c :: t =>
      if c.isDigit then
        let p := scanDigits t
        (c :: p.1, p.2)
      else ([], c :: t)
  | [] => ([], [])

/-- Digits to a number. -/
def digitsToNat (ds : List Char) : Nat :=
  ds.foldl (fun a c => a * 10 + (c.toNat - 48)) 0

/-- Scan a JSON integer. -/
def scanNum (l : List Char) : Option (Int × List Char) :=
  match l with
  | '-' :: t =>
      match scanDigits t with
      | ([], _) => none
      | (ds, r) => some (-(digitsToNat ds : Int), r)
  | _ =>
      match scanDigits l with
      | ([], _) => none
      | (ds, r) => some ((digitsToNat ds : Int), r)

/-- Scan a JSON scalar value (string or integer). -/
def scanScalar (l : List Char) : Option (CVal × List Char) :=
  match skipWs l with
  | '"' :: t =>
      match scanStrBody t with
      | some (cs, r) => some (.str (String.mk cs), r)
      | none => none
  | t =>
      match scanNum t with
      | some (i, r) => some (.num i, r)
      | none => none

/-- Scan `"key": value` entries separated by `,` up to the closing `}`. -/
def scanEntries : Nat → List Char → Option (Dict × List Char)
  | 0, _ => none
  | fuel + 1, l =>
      match skipWs l with
      | '"' :: t =>
          match scanStrBody t with
          | some (ks, r₁) =>
              match skipWs r₁ with
              | ':' :: r₂ =>
                  match scanScalar r₂ with
                  | some (v, r₃) =>
                      match skipWs r₃ with
                      | ',' :: r₄ =>
                          match scanEntries fuel r₄ with
                          | some (d, r₅) => some ((String.mk ks, v) :: d, r₅)
                          | none => none
                      | '}' :: r₄ => some ([(String.mk ks, v)], r₄)
                      | _ => none
                  | none => none
              | _ => none
          | none => none
      | _ => none

/-- Model of `json.loads` applied to the `credentials_json` text of a GCS
provider: a flat object of string/integer fields; `none` models raising
`json.JSONDecodeError`. -/
def jsonLoadsText (s : String) : Option Dict :=
  match skipWs s.data with
  | '{' :: t =>
      match skipWs t with
      | '}' :: r => if skipWs r = [] then some [] else none
      | t' =>
          match scanEntries (t'.length + 1) t' with
          | some (d, r) => if skipWs r = [] then some d else none
          | none => none
  | _ => none

/-- `GCSBackend` state after `__init__` (backends.py 131-143). -/
structure GCSBackend where
  bucket_name : CVal
  credentials_dict : Dict
  project_id : Option CVal
  deriving DecidableEq, Repr

/-- `GCSBackend.__init__`: `config['bucket']`, then
`json.loads(credentials['credentials_json'])` — malformed JSON raises
`json.JSONDecodeError`, a non-string value raises `TypeError` (modelled
as `valueError`). -/
def GCSBackend.init (credentials config : Dict) : Except PyError GCSBackend := do
  let bucket_name ← ditem config "bucket"
  let cj ← ditem credentials "credentials_json"
  match cj with
  | .str s =>
      match jsonLoadsText s with
      | some credentials_dict =>
          return ⟨bucket_name, credentials_dict, dget credentials_dict "project_id"⟩
      | none => .error .jsonDecodeError
  | .num _ => .error (.valueError "the JSON object must be str, not int")

/-- State of the remote SFTP server as seen by one backend instance:
stored files, created directories, and whether the host is reachable
(drives `Transport`/`_ensure_connected` success). -/
structure SFTPServer where
  files : List (String × List Nat)
  dirs : List String
  connOk : Bool
  deriving DecidableEq, Repr

/-- `SFTPBackend` state after `__init__` (backends.py 177-189). -/
structure SFTPBackend where
  host : CVal
  username : CVal
  password : Option CVal
  key_file : Option CVal
  port : CVal
  remote_path : CVal
  deriving DecidableEq, Repr

/-- `SFTPBackend.__init__`: reads credentials/config fields then calls
`_connect`, which fails when the host is unreachable.  Authentication is
modelled as accepted whenever the transport connects; a credential map
with neither a truthy `password` nor `key_file` leaves the transport
unauthenticated and `SFTPClient.from_transport` raises. -/
def SFTPBackend.init (credentials config : Dict) (srv : SFTPServer) :
    Except PyError SFTPBackend := do
  let host ← ditem credentials "host"
  let username ← ditem credentials "username"
  let password := dget credentials "password"
  let key_file := dget credentials "key_file"
  let port := dgetD credentials "port" (.num 22)
  let remote_path ← ditem config "remote_path"
  if !srv.connOk then
    .error .connectivityError
  else if !(cvTruthy password) && !(cvTruthy key_file) then
    .error (.valueError "Transport not authenticated")
  else
    return ⟨host, username, password, key_file, port, remote_path⟩

/-- A constructed backend (the factory's result). -/
inductive Backend where
  | s3 (b : S3Backend)
  | azure (b : AzureBlobBackend)
  | gcs (b : GCSBackend)
  | sftp (b : SFTPBackend)
  deriving DecidableEq, Repr

/-- `get_storage_backend` (storage/backends.py lines 292-308): decrypt
the provider's credentials, then dispatch on `provider_type` through the
`backends` dict; an unrecognized type raises
`ValueError(f"Unsupported storage provider: {...}")`. -/
def get_storage_backend (key : Option String) (srv : SFTPServer)
    (storage_provider : StorageProvider) : Except PyError Backend := do
  let credentials ← get_credentials key storage_provider.encrypted_credentials
  let config := storage_provider.config
  match storage_provider.provider_type with
  | "s3" => (S3Backend.init credentials config).map .s3
  | "azure" => (AzureBlobBackend.init credentials config).map .azure
  | "gcs" => (GCSBackend.init credentials config).map .gcs
  | "sftp" => (SFTPBackend.init credentials config srv).map .sftp
  | t => .error (.valueError ("Unsupported storage provider: " ++ t))

/-! ## Backend operations over modelled provider clients

Each remote store is a map from path to bytes plus a reachability flag;
a client call fails with `connectivityError` when the store is
unreachable.  The backend methods below are translated from the source;
only the provider SDK calls (`head_object`, `blob_client.exists`, …) are
modelled. -/

/-- Lookup in a path → bytes map. -/
def lookupBytes (l : List (String × List Nat)) (k : String) : Option (List Nat) :=
  match l with
  | [] => none
  | (k', v) :: t => if k' = k then some v else lookupBytes t k

/-- The S3 bucket as the `boto3` client sees it. -/
structure S3Client where
  objects : List (String × List Nat)
  connOk : Bool
  deriving DecidableEq, Repr

/-- `client.head_object`: 404 `ClientError` when the key is absent,
connectivity/auth error when the endpoint is unreachable. -/
def head_object (c : S3Client) (path : String) : Except PyError Unit :=
  if c.connOk then
    match lookupBytes c.objects path with
    | some _ => .ok ()
    | none => .error (.clientError 404)
  else .error .connectivityError

/-- `client.upload_fileobj`: writes (overwrites) the object. -/
def upload_fileobj (c : S3Client) (data : List Nat) (path : String) :
    Except PyError S3Client :=
  if c.connOk then .ok { c with objects := (path, data) :: c.objects }
  else .error .connectivityError

/-- `S3Backend.upload` (backends.py 54-57). -/
def S3Backend.upload (c : S3Client) (file_obj : List Nat) (path : String) :
    Except PyError (S3Client × String) :=
  (upload_fileobj c file_obj path).map fun c' => (c', path)

/-- `S3Backend.exists` (backends.py 70-76): `head_object` under a bare
`except:` — every failure, 404 or not, becomes `False`. -/
def S3Backend.exists (c : S3Client) (path : String) : Bool :=
  match head_object c path with
  | .ok _ => true
  | .error _ => false

/-- The Azure container as the SDK sees it. -/
structure AzureClient where
  blobs : List (String × List Nat)
  connOk : Bool
  deriving DecidableEq, Repr

/-- `AzureBlobBackend.upload` (backends.py 98-102): `upload_blob` with
`overwrite=True`. -/
def AzureBlobBackend.upload (c : AzureClient) (file_obj : List Nat)
    (path : String) : Except PyError (AzureClient × String) :=
  if c.connOk then .ok ({ c with blobs := (path, file_obj) :: c.blobs }, path)
  else .error .connectivityError

/-- `AzureBlobBackend.exists` (backends.py 117-120): delegates to
`blob_client.exists()`; SDK failures propagate. -/
def AzureBlobBackend.exists (c : AzureClient) (path : String) :
    Except PyError Bool :=
  if c.connOk then .ok (lookupBytes c.blobs path).isSome
  else .error .connectivityError

/-- The GCS bucket as the SDK sees it. -/
structure GCSClient where
  blobs : List (String × List Nat)
  connOk : Bool
  deriving DecidableEq, Repr

/-- `GCSBackend.upload` (backends.py 145-149). -/
def GCSBackend.upload (c : GCSClient) (file_obj : List Nat) (path : String) :
    Except PyError (GCSClient × String) :=
  if c.connOk then .ok ({ c with blobs := (path, file_obj) :: c.blobs }, path)
  else .error .connectivityError

/-- `GCSBackend.exists` (backends.py 164-167): delegates to
`blob.exists()`; SDK failures propagate. -/
def GCSBackend.exists (c : GCSClient) (path : String) : Except PyError Bool :=
  if c.connOk then .ok (lookupBytes c.blobs path).isSome
  else .error .connectivityError

/-- Is the first character of `s` the character `c`? -/
def strHeadIs (s : String) (c : Char) : Bool :=
  match s.data with
  | x :: _ => x == c
  | [] => false

/-- Is the last character of `s` the character `c`? -/
def strLastIs (s : String) (c : Char) : Bool :=
  match s.data.reverse with
  | x :: _ => x == c
  | [] => false

/-- `os.path.join` on POSIX paths, two arguments: an absolute second
argument replaces the first; otherwise a separator is inserted unless
already present. -/
def ospJoin (a b : String) : String :=
  if strHeadIs b '/' then b
  else if a.data.isEmpty then b
  else if strLastIs a '/' then a ++ b
  else a ++ "/" ++ b

/-- `os.path.dirname` on POSIX paths. -/
def dirname (s : String) : String :=
  let cs := s.data
  let k := (cs.reverse.takeWhile (fun c => c != '/')).length
  if k = cs.length then ""
  else
    let head := cs.take (cs.length - k)
    if head.all (fun c => c == '/') then String.mk head
    else String.mk ((head.reverse.dropWhile (fun c => c == '/')).reverse)

/-- `sftp.stat`: `FileNotFoundError` when neither a file nor a directory
exists at the path. -/
def sftpStat (srv : SFTPServer) (p : String) : Except PyError Unit :=
  if srv.connOk then
    if (lookupBytes srv.files p).isSome || srv.dirs.contains p then .ok ()
    else .error .fileNotFoundError
  else .error .connectivityError

/-- The directory list built by `_mkdir_p`'s `while` loop (backends.py
259-272), already in root-to-deepest order (the source builds it
deepest-first and reverses).  Fuel bounds the `dirname` iteration. -/
def mkdirChain : Nat → String → List String
  | 0, _ => []
  | fuel + 1, d =>
      if d.isEmpty || d == "/" then []
      else
        let parent := dirname d
        if parent == d then [d]
        else mkdirChain fuel parent ++ [d]

/-- One step of `_mkdir_p`'s creation loop (backends.py 274-282):
`stat`, and if that fails, `mkdir` under `except: pass`.  Called only
while connected (`mkdir` itself is modelled as succeeding then). -/
def mkdirStep (srv : SFTPServer) (d : String) : SFTPServer :=
  match sftpStat srv d with
  | .ok _ => srv
  | .error _ => { srv with dirs := d :: srv.dirs }

/-- `SFTPBackend._mkdir_p` (backends.py 254-282). -/
def sftpMkdirP (srv : SFTPServer) (remote_directory : String) : SFTPServer :=
  if remote_directory.isEmpty || remote_directory == "/" then srv
  else (mkdirChain (remote_directory.length + 1) remote_directory).foldl mkdirStep srv

/-- String value of a config entry (`remote_path` is a string in every
valid configuration). -/
def cvStr : CVal → String
  | .str s => s
  | .num i => toString i

/-- `SFTPBackend.upload` (backends.py 210-223): `_ensure_connected`,
join the path under `remote_path`, `stat` the directory (creating it via
`_mkdir_p` on `FileNotFoundError`), then `putfo`. -/
def SFTPBackend.upload (b : SFTPBackend) (srv : SFTPServer)
    (file_obj : List Nat) (path : String) :
    Except PyError (SFTPServer × String) :=
  if srv.connOk then
    let remote_path := ospJoin (cvStr b.remote_path) path
    let remote_dir := dirname remote_path
    let srv₁ :=
      match sftpStat srv remote_dir with
      | .ok _ => srv
      | .error _ => sftpMkdirP srv remote_dir
    .ok ({ srv₁ with files := (remote_path, file_obj) :: srv₁.files }, path)
  else .error .connectivityError

/-- `SFTPBackend.exists` (backends.py 240-248): `_ensure_connected`,
then `stat` under `except FileNotFoundError: return False` — other
failures propagate. -/
def SFTPBackend.exists (b : SFTPBackend) (srv : SFTPServer) (path : String) :
    Except PyError Bool :=
  if srv.connOk then
    let remote_path := ospJoin (cvStr b.remote_path) path
    match sftpStat srv remote_path with
    | .ok _ => .ok true
    | .error .fileNotFoundError => .ok false
    | .error e => .error e
  else .error .connectivityError

/-! ## Image upload and deletion orchestration (images/views.py) -/

/-- An `Image` row (images/models.py lines 6-42). -/
structure ImageRec where
  user : Nat
  storage_provider_pk : Nat
  original_filename : String
  file_size : Nat
  content_type : String
  storage_path : String
  width : Option Nat
  height : Option Nat
  is_optimized : Bool
  optimized_size : Option Nat
  optimization_percentage : Option Rat
  tags : List String
  metadata : Dict
  deriving DecidableEq, Repr

/-- `os.path.splitext`'s extension part: the suffix from the last dot of
the basename, empty when there is no dot or only leading dots. -/
def splitextExt (s : String) : String :=
  let base := ((s.data.reverse.takeWhile (fun c => c != '/')).reverse)
  let afterDot := base.reverse.takeWhile (fun c => c != '.')
  if afterDot.length = base.length then ""
  else
    let before := base.take (base.length - afterDot.length - 1)
    if before.all (fun c => c == '.') then ""
    else String.mk ('.' :: afterDot.reverse)

/-- Zero-padded month (`{now.month:02d}`). -/
def pad2 (n : Nat) : String :=
  if n < 10 then "0" ++ toString n else toString n

/-- `generate_storage_path` (images/utils.py lines 104-130).  The wall
clock and `uuid4().hex[:8]` are inputs (`timestamp`, `unique_id`,
`year`, `month`). -/
def generate_storage_path (user_id : Nat) (filename : String)
    (timestamp unique_id : String) (year month : Nat) : String :=
  let ext := splitextExt filename
  let new_filename := timestamp ++ "_" ++ unique_id ++ ext
  "user_" ++ toString user_id ++ "/" ++ toString year ++ "/" ++ pad2 month
    ++ "/" ++ new_filename

/-- Outcome of `ImageViewSet.create`: the HTTP status, the created row
(if any), and the bytes handed to `backend.upload` (if reached). -/
structure CreateOutcome where
  status : Nat
  record : Option ImageRec
  uploadedBytes : Option (List Nat)
  deriving DecidableEq, Repr

/-- The tail of `ImageViewSet.create` (images/views.py lines 101-132):
generate the storage path, upload (a raised error becomes a 500 response
and no row), then create the `Image` row.  `optimized_size` and
`optimization_percentage` are stored only when `is_optimized`
(lines 124-125). -/
def imageCreateFinish (userId providerPk : Nat)
    (filename content_type : String) (original_size : Nat)
    (tags : List String) (imgWidth imgHeight : Nat)
    (timestamp unique_id : String) (year month : Nat)
    (uploadResult : String → List Nat → Except PyError String)
    (is_optimized : Bool) (optimized_size : Option Nat)
    (optimization_percentage : Option Rat) (metadata : Dict)
    (upload_file : List Nat) : CreateOutcome :=
  let storage_path := generate_storage_path userId filename timestamp unique_id year month
  match uploadResult storage_path upload_file with
  | .error _ => ⟨500, none, some upload_file⟩
  | .ok _ =>
      ⟨201,
        some {
          user := userId
          storage_provider_pk := providerPk
          original_filename := filename
          file_size := original_size
          content_type := content_type
          storage_path := storage_path
          width := some imgWidth
          height := some imgHeight
          is_optimized := is_optimized
          optimized_size := if is_optimized then optimized_size else none
          optimization_percentage :=
            if is_optimized then optimization_percentage else none
          tags := tags
          metadata := metadata },
        some upload_file⟩

/-- `ImageViewSet.create` (images/views.py lines 39-132), after request
validation and provider resolution.  `optFn` is the external
`optimize_image` routine (PIL): bytes in, optimized bytes and metadata
out; `imgWidth`/`imgHeight` are `get_image_info`'s result;
`uploadResult` is `backend.upload` on the resolved provider.  The
original size is the stream length (the seek/tell dance).  With
`optimize` and an empty file the percentage formula's division by zero
propagates (HTTP 500, nothing uploaded, no row). -/
def imageCreate (userId providerPk : Nat)
    (image_file : List Nat) (filename content_type : String)
    (optimize : Bool) (tags : List String)
    (optFn : List Nat → List Nat × Dict)
    (imgWidth imgHeight : Nat)
    (timestamp unique_id : String) (year month : Nat)
    (uploadResult : String → List Nat → Except PyError String) :
    CreateOutcome :=
  let original_size := image_file.length
  if optimize then
    let p := optFn image_file
    let optimized_file := p.1
    let optimized_size := optimized_file.length
    if original_size = 0 then ⟨500, none, none⟩
    else
      let optimization_percentage : Rat :=
        ((original_size : Rat) - (optimized_size : Rat)) / (original_size : Rat) * 100
      imageCreateFinish userId providerPk filename content_type original_size
        tags imgWidth imgHeight timestamp unique_id year month uploadResult
        true (some optimized_size) (some optimization_percentage) p.2
        optimized_file
  else
    imageCreateFinish userId providerPk filename content_type original_size
      tags imgWidth imgHeight timestamp unique_id year month uploadResult
      false none none [] image_file

/-- Outcome of `ImageViewSet.destroy`: HTTP status, the image table
afterwards, and the storage error that was logged (if any). -/
structure DestroyOutcome where
  status : Nat
  db : List ImageRec
  loggedError : Option PyError
  deriving DecidableEq, Repr

/-- `ImageViewSet.destroy` (images/views.py lines 134-149):
`get_storage_backend` + `backend.delete` under `except Exception`
(`deleteResult` is that combined outcome) — an error is logged and the
row is deleted from the database regardless; the response is 204. -/
def imageDestroy (deleteResult : Except PyError Unit)
    (db : List ImageRec) (image : ImageRec) : DestroyOutcome :=
  let logged := match deleteResult with
    | .ok _ => none
    | .error e => some e
  { status := 204, db := db.erase image, loggedError := logged }

/-! ## Vault lemmas -/

theorem takeChars_append (cs : List Char) (rest : List Sym) :
    takeChars cs.length (cs.map .ch ++ rest) = some (cs, rest) := by
  induction cs with
  | nil => rfl
  | cons c t ih => simp [takeChars, ih]

theorem string_mk_data (s : String) : String.mk s.data = s := rfl

theorem parseStr_enc (s : String) (rest : List Sym) :
    parseStr (encStr s ++ rest) = some (s, rest) := by
  have h := takeChars_append s.data rest
  simp only [String.length_data] at h ⊢
  simp [encStr, parseStr, h, string_mk_data]

theorem parseVal_enc (v : CVal) (rest : List Sym) :
    parseVal (encVal v ++ rest) = some (v, rest) := by
  cases v with
  | str s => simp [encVal, parseVal, parseStr_enc]
  | num i =>
      rcases lt_or_le i 0 with h | h
      · simp [encVal, if_pos h, parseVal, abs_of_neg h]
      · simp [encVal, if_neg (not_lt.mpr h), parseVal, abs_of_nonneg h]

/-- The entry stream of `dumps`. -/
theorem parseEntries_enc (d : Dict) (rest : List Sym) :
    parseEntries d.length (encEntries d ++ rest) = some (d, rest) := by
  induction d generalizing rest with
  | nil => rfl
  | cons kv t ih =>
      obtain ⟨k, v⟩ := kv
      have hsplit : encEntries ((k, v) :: t) ++ rest
          = encStr k ++ (encVal v ++ (encEntries t ++ rest)) := by
        simp [encEntries, List.append_assoc]
      rw [hsplit]
      simp [parseEntries, parseStr_enc, parseVal_enc, ih]

theorem loads_dumps (d : Dict) : loads (dumps d) = some d := by
  have h := parseEntries_enc d []
  rw [List.append_nil] at h
  simp [dumps, loads, h]

theorem fernetDecrypt_encrypt (key : String) (msg : List Sym) :
    fernetDecrypt key (fernetEncrypt key msg) = some msg := by
  simp [fernetEncrypt, fernetDecrypt]

theorem symCode_inj {a b : Sym} (h : symCode a = symCode b) : a = b := by
  cases a with
  | nat n =>
      cases b with
      | nat m =>
          simp only [symCode, Nat.pair_eq_pair] at h
          rw [h.2]
      | ch c =>
          simp only [symCode, Nat.pair_eq_pair] at h
          omega
  | ch c =>
      cases b with
      | nat m =>
          simp only [symCode, Nat.pair_eq_pair] at h
          omega
      | ch c' =>
          simp only [symCode, Nat.pair_eq_pair] at h
          exact congrArg Sym.ch (Char.ext (UInt32.ext h.2))

theorem fernetHash_inj : ∀ {l₁ l₂ : List Sym},
    fernetHash l₁ = fernetHash l₂ → l₁ = l₂ := by
  intro l₁
  induction l₁ with
  | nil =>
      intro l₂ h
      cases l₂ with
      | nil => rfl
      | cons s t => simp [fernetHash] at h
  | cons s t ih =>
      intro l₂ h
      cases l₂ with
      | nil => simp [fernetHash] at h
      | cons s' t' =>
          simp only [fernetHash, Nat.add_right_cancel_iff, Nat.pair_eq_pair] at h
          rw [symCode_inj h.1, ih h.2]

/-- Any single-symbol modification of a sealed token is rejected by
`fernetDecrypt`. -/
theorem fernetDecrypt_set_ne (k : String) (msg : List Sym) (i : Nat) (s : Sym)
    (hi : i < (fernetEncrypt k msg).length)
    (hs : s ≠ (fernetEncrypt k msg)[i]) :
    fernetDecrypt k ((fernetEncrypt k msg).set i s) = none := by
  match i with
  | 0 =>
      have hgot : (fernetEncrypt k msg)[0] = Sym.nat (keyCode k) := rfl
      rw [hgot] at hs
      show fernetDecrypt k (s :: .nat (fernetHash msg) :: msg) = none
      cases s with
      | nat kc =>
          have hne : kc ≠ keyCode k := fun h => hs (by rw [h])
          simp [fernetDecrypt, hne]
      | ch c => rfl
  | 1 =>
      have hgot : (fernetEncrypt k msg)[1] = Sym.nat (fernetHash msg) := rfl
      rw [hgot] at hs
      show fernetDecrypt k (.nat (keyCode k) :: s :: msg) = none
      cases s with
      | nat h' =>
          have hne : h' ≠ fernetHash msg := fun h => hs (by rw [h])
          simp [fernetDecrypt, hne]
      | ch c => rfl
  | j + 2 =>
      have hj : j < msg.length := by
        simpa [fernetEncrypt] using hi
      have hgot : (fernetEncrypt k msg)[j + 2] = msg[j] := rfl
      rw [hgot] at hs
      show fernetDecrypt k (.nat (keyCode k) :: .nat (fernetHash msg) :: msg.set j s)
          = none
      have hne : msg.set j s ≠ msg := by
        intro he
        have h1 : (msg.set j s)[j]? = some s := List.getElem?_set_self hj
        have h2 := congrArg (fun l => l[j]?) he
        simp only [h1, List.getElem?_eq_getElem hj, Option.some.injEq] at h2
        exact hs h2
      have hh : fernetHash (msg.set j s) ≠ fernetHash msg :=
        fun h => hne (fernetHash_inj h)
      simp [fernetDecrypt]
      exact fun h => hh h.symm

/-! ## C2, C3, C4: the credential vault -/

/-- **C2**: for every credential map (empty and unicode values included),
`get_credentials` after `set_credentials` returns the original map when
the encryption key is configured. -/
theorem get_credentials_set_credentials_roundtrip (k : String) (cred : Dict)
    (ct : List Sym) (hk : k.isEmpty = false)
    (hct : set_credentials (some k) cred = .ok ct) :
    get_credentials (some k) ct = .ok cred := by
  have hct' : ct = fernetEncrypt k (dumps cred) := by
    simp [set_credentials, hk] at hct
    exact hct.symm
  subst hct'
  simp [get_credentials, hk, fernetDecrypt_encrypt, loads_dumps]

/-- Witness for C2 at a concrete unicode-valued credential map. -/
theorem get_credentials_set_credentials_roundtrip_witness :
    get_credentials (some "k") (fernetEncrypt "k" (dumps [("a", CVal.str "é")]))
      = .ok [("a", CVal.str "é")] :=
  get_credentials_set_credentials_roundtrip "k" [("a", CVal.str "é")]
    (fernetEncrypt "k" (dumps [("a", CVal.str "é")])) (by decide) (by rfl)

/-- **C3**: for every ciphertext produced by `set_credentials` and every
single-symbol modification of it, `get_credentials` fails with the
decryption error (`InvalidToken`); it never returns a credential map. -/
theorem get_credentials_tampered_rejected (k : String) (cred : Dict)
    (ct : List Sym) (i : Nat) (s : Sym)
    (hk : k.isEmpty = false)
    (hct : set_credentials (some k) cred = .ok ct)
    (hi : i < ct.length)
    (hs : s ≠ ct[i]) :
    get_credentials (some k) (ct.set i s) = .error .invalidToken := by
  have hct' : ct = fernetEncrypt k (dumps cred) := by
    simp [set_credentials, hk] at hct
    exact hct.symm
  subst hct'
  have hd := fernetDecrypt_set_ne k (dumps cred) i s hi hs
  simp [get_credentials, hk, hd]

/-- Witness for C3: flipping the payload symbol of a concrete token. -/
theorem get_credentials_tampered_rejected_witness :
    get_credentials (some "k")
      ((fernetEncrypt "k" (dumps [("a", CVal.str "b")])).set 2 (.nat 5))
      = .error .invalidToken :=
  get_credentials_tampered_rejected "k" [("a", CVal.str "b")]
    (fernetEncrypt "k" (dumps [("a", CVal.str "b")])) 2 (.nat 5)
    (by decide) (by rfl) (by decide) (by decide)

/-- **C4**: when the process-wide encryption key is absent (unset or
empty), both `set_credentials` and `get_credentials` fail with the
configuration error (`ValueError("STORAGE_ENCRYPTION_KEY not
configured")`); neither returns a value. -/
theorem credentials_missing_key_configuration_error (key : Option String)
    (cred : Dict) (ct : List Sym) (hk : keyFalsy key = true) :
    set_credentials key cred
        = .error (.valueError "STORAGE_ENCRYPTION_KEY not configured") ∧
    get_credentials key ct
        = .error (.valueError "STORAGE_ENCRYPTION_KEY not configured") := by
  cases key with
  | none => exact ⟨rfl, rfl⟩
  | some k =>
      simp only [keyFalsy] at hk
      simp [set_credentials, get_credentials, hk]

/-- Witness for C4 at the unset key. -/
theorem credentials_missing_key_configuration_error_witness :
    set_credentials none [("a", CVal.str "b")]
        = .error (.valueError "STORAGE_ENCRYPTION_KEY not configured") ∧
    get_credentials none [.nat 3]
        = .error (.valueError "STORAGE_ENCRYPTION_KEY not configured") :=
  credentials_missing_key_configuration_error none [("a", CVal.str "b")]
    [.nat 3] (by decide)

/-! ## C1: the default-provider invariant -/

theorem countP_map_le {α : Type} (l : List α) (f : α → α) (q p' : α → Bool)
    (h : ∀ x ∈ l, q (f x) = true → p' x = true) :
    (l.map f).countP q ≤ l.countP p' := by
  induction l with
  | nil => simp
  | cons a t ih =>
      simp only [List.map_cons, List.countP_cons]
      have ht := ih fun x hx => h x (List.mem_cons_of_mem a hx)
      by_cases hq : q (f a) = true
      · rw [h a (List.mem_cons_self a t) hq, hq]
        omega
      · have h0 : (if q (f a) = true then 1 else 0) = 0 := by simp [hq]
        rw [h0]
        split <;> omega

theorem countP_pk_le_one (l : List StorageProvider)
    (h : (l.map StorageProvider.pk).Nodup) (a : Nat) :
    l.countP (fun r => decide (r.pk = a)) ≤ 1 := by
  induction l with
  | nil => simp
  | cons r t ih =>
      simp only [List.map_cons, List.nodup_cons] at h
      simp only [List.countP_cons]
      by_cases hr : r.pk = a
      · have h0 : t.countP (fun r => decide (r.pk = a)) = 0 := by
          apply List.countP_eq_zero.mpr
          intro x hx
          simp only [decide_eq_true_eq]
          intro hxa
          exact h.1 (hr ▸ hxa ▸ List.mem_map_of_mem StorageProvider.pk hx)
        simp [hr, h0]
      · have := ih h.2
        simp [hr]
        omega

/-- A record surviving `clearOtherDefaults` that is still a default of
`p.user` carries `p`'s primary key. -/
theorem clearOther_default_pk (p : StorageProvider) (db : List StorageProvider) :
    ∀ r ∈ clearOtherDefaults p db, isDefaultFor p.user r = true → r.pk = p.pk := by
  intro r hr hd
  obtain ⟨x, hx, hfx⟩ := List.mem_map.mp hr
  by_cases hc : x.user = p.user ∧ x.is_default = true ∧ x.pk ≠ p.pk
  · rw [if_pos hc] at hfx
    rw [← hfx] at hd
    simp [isDefaultFor] at hd
  · rw [if_neg hc] at hfx
    subst hfx
    push_neg at hc
    simp only [isDefaultFor, Bool.and_eq_true, beq_iff_eq] at hd
    exact hc hd.1 hd.2

/-- `clearOtherDefaults` does not change the default count of any other
user. -/
theorem clearOther_count_other (p : StorageProvider) (db : List StorageProvider)
    (u : Nat) (hu : u ≠ p.user) :
    (clearOtherDefaults p db).countP (isDefaultFor u) = db.countP (isDefaultFor u) := by
  unfold clearOtherDefaults
  rw [List.countP_map]
  apply List.countP_congr
  intro x hx
  by_cases hc : x.user = p.user ∧ x.is_default = true ∧ x.pk ≠ p.pk
  · have hxu : ¬(x.user = u) := fun h => hu (h ▸ hc.1)
    simp [Function.comp, if_pos hc, isDefaultFor, hxu]
  · simp [Function.comp, if_neg hc]

theorem pks_clearOtherDefaults (p : StorageProvider) (db : List StorageProvider) :
    pks (clearOtherDefaults p db) = pks db := by
  unfold pks clearOtherDefaults
  rw [List.map_map]
  apply List.map_congr_left
  intro x _
  by_cases hc : x.user = p.user ∧ x.is_default = true ∧ x.pk ≠ p.pk
  · simp [Function.comp, if_pos hc]
  · simp [Function.comp, if_neg hc]

theorem pks_dbUpsert_nodup (p : StorageProvider) (l : List StorageProvider)
    (hnd : (pks l).Nodup) : (pks (dbUpsert p l)).Nodup := by
  unfold dbUpsert
  split
  · have heq : pks (l.map fun r => if r.pk = p.pk then p else r) = pks l := by
      unfold pks
      rw [List.map_map]
      apply List.map_congr_left
      intro x _
      by_cases hpk : x.pk = p.pk
      · simp [Function.comp, if_pos hpk, hpk]
      · simp [Function.comp, if_neg hpk]
    rwa [heq]
  · next hany =>
      unfold pks
      rw [List.map_append, List.nodup_append]
      refine ⟨hnd, by simp, ?_⟩
      intro a ha
      simp only [List.map_cons, List.map_nil, List.mem_singleton]
      intro hae
      subst hae
      have hany' := List.any_eq_false.mp (Bool.eq_false_iff.mpr hany)
      obtain ⟨x, hx, hxe⟩ := List.mem_map.mp ha
      exact hany' x hx (by simp [hxe])

/-- `dbUpsert` cannot raise the count of a predicate that rejects the
upserted record. -/
theorem countP_dbUpsert_le_of_not (p : StorageProvider) (l : List StorageProvider)
    (q : StorageProvider → Bool) (hq : q p = false) :
    (dbUpsert p l).countP q ≤ l.countP q := by
  unfold dbUpsert
  split
  · apply countP_map_le
    intro x _ hqg
    by_cases hpk : x.pk = p.pk
    · rw [if_pos hpk, hq] at hqg
      cases hqg
    · rwa [if_neg hpk] at hqg
  · rw [List.countP_append]
    simp [List.countP_cons, hq]

/-- When every `q`-record of the table carries `p`'s primary key and the
keys are unique, the upserted table has at most one `q`-record. -/
theorem countP_dbUpsert_le_one (p : StorageProvider) (l : List StorageProvider)
    (q : StorageProvider → Bool) (hnd : (pks l).Nodup)
    (hB : ∀ r ∈ l, q r = true → r.pk = p.pk) :
    (dbUpsert p l).countP q ≤ 1 := by
  unfold dbUpsert
  split
  · calc (l.map fun r => if r.pk = p.pk then p else r).countP q
        ≤ l.countP (fun r => decide (r.pk = p.pk)) := by
          apply countP_map_le
          intro x hx hqg
          by_cases hpk : x.pk = p.pk
          · simp [hpk]
          · rw [if_neg hpk] at hqg
            exact absurd (hB x hx hqg) hpk
      _ ≤ 1 := countP_pk_le_one l hnd p.pk
  · next hany =>
      rw [List.countP_append]
      have h0 : l.countP q = 0 := by
        apply List.countP_eq_zero.mpr
        intro x hx hqx
        have hany' := List.any_eq_false.mp (Bool.eq_false_iff.mpr hany)
        exact hany' x hx (by simp [hB x hx hqx])
      rw [h0]
      simp [List.countP_cons]
      split <;> omega

/-- `StorageProvider.save` preserves table well-formedness. -/
theorem DBWF_save (p : StorageProvider) (db : List StorageProvider)
    (h : DBWF db) : DBWF (p.save db) := by
  obtain ⟨hnd, hcnt⟩ := h
  unfold StorageProvider.save
  have hpks' : pks (if p.is_default then clearOtherDefaults p db else db) = pks db := by
    split
    · exact pks_clearOtherDefaults p db
    · rfl
  have hnd' : (pks (if p.is_default then clearOtherDefaults p db else db)).Nodup := by
    rw [hpks']
    exact hnd
  refine ⟨pks_dbUpsert_nodup p _ hnd', ?_⟩
  intro u
  unfold defaultCount
  by_cases hdef : p.is_default = true
  · rw [if_pos hdef] at hnd' ⊢
    by_cases hu : u = p.user
    · subst hu
      exact countP_dbUpsert_le_one p _ _ hnd' (clearOther_default_pk p db)
    · have hqp : isDefaultFor u p = false := by
        have : ¬(p.user = u) := fun he => hu he.symm
        simp [isDefaultFor, this]
      calc (dbUpsert p (clearOtherDefaults p db)).countP (isDefaultFor u)
          ≤ (clearOtherDefaults p db).countP (isDefaultFor u) :=
            countP_dbUpsert_le_of_not p _ _ hqp
        _ = db.countP (isDefaultFor u) := clearOther_count_other p db u hu
        _ ≤ 1 := hcnt u
  · rw [if_neg hdef]
    have hdf : p.is_default = false := Bool.eq_false_iff.mpr hdef
    have hqp : isDefaultFor u p = false := by simp [isDefaultFor, hdf]
    calc (dbUpsert p db).countP (isDefaultFor u)
        ≤ db.countP (isDefaultFor u) := countP_dbUpsert_le_of_not p _ _ hqp
      _ ≤ 1 := hcnt u

theorem DBWF_applyOp (db : List StorageProvider) (op : ProviderOp)
    (h : DBWF db) : DBWF (applyOp db op) := by
  cases op with
  | save p => exact DBWF_save p db h
  | setDefault u pk =>
      show DBWF (set_default db u pk)
      unfold set_default
      cases hfind : db.find? fun r => r.pk == pk && r.user == u with
      | some sp => exact DBWF_save _ db h
      | none => exact h

theorem DBWF_applyOps (db : List StorageProvider) (ops : List ProviderOp)
    (h : DBWF db) : DBWF (applyOps db ops) := by
  induction ops generalizing db with
  | nil => exact h
  | cons op t ih => exact ih _ (DBWF_applyOp db op h)

/-- Any record other than `p` itself, for the same user, comes out of a
default-setting `save` with the flag cleared. -/
theorem save_clears_other_defaults (p r : StorageProvider)
    (db : List StorageProvider) (hdef : p.is_default = true)
    (hr : r ∈ p.save db) (huser : r.user = p.user) (hpk : r.pk ≠ p.pk) :
    r.is_default = false := by
  unfold StorageProvider.save at hr
  rw [if_pos hdef] at hr
  have hclear : ∀ x ∈ clearOtherDefaults p db,
      x.user = p.user → x.pk ≠ p.pk → x.is_default = false := by
    intro x hx hxu hxpk
    by_cases hd : x.is_default = true
    · exact absurd (clearOther_default_pk p db x hx (by simp [isDefaultFor, hxu, hd]))
        hxpk
    · exact Bool.eq_false_iff.mpr hd
  unfold dbUpsert at hr
  split at hr
  · obtain ⟨x, hx, hfx⟩ := List.mem_map.mp hr
    by_cases hxpk : x.pk = p.pk
    · rw [if_pos hxpk] at hfx
      exact absurd (hfx ▸ rfl : r.pk = p.pk) hpk
    · rw [if_neg hxpk] at hfx
      subst hfx
      exact hclear x hx huser hpk
  · rw [List.mem_append] at hr
    rcases hr with hr | hr
    · exact hclear r hr huser hpk
    · rw [List.mem_singleton] at hr
      exact absurd (hr ▸ rfl : r.pk = p.pk) hpk

/-- **C1**: starting from a well-formed table, after any sequence of
provider writes — model saves with arbitrary field values (`is_default`
included) and `set_default` actions — every user still has at most one
provider with `is_default = true`; and every save of a provider with
`is_default = true` clears the flag on all other providers of the same
user. -/
theorem single_default_invariant (db : List StorageProvider)
    (ops : List ProviderOp) (h : DBWF db) :
    (∀ u, defaultCount (applyOps db ops) u ≤ 1) ∧
    (∀ (p r : StorageProvider) (db₀ : List StorageProvider),
        p.is_default = true → r ∈ p.save db₀ → r.user = p.user →
        r.pk ≠ p.pk → r.is_default = false) :=
  ⟨(DBWF_applyOps db ops h).2,
    fun p r db₀ hdef hr hu hpk => save_clears_other_defaults p r db₀ hdef hr hu hpk⟩

/-- Witness for C1: a fresh user saving two default providers, then
`set_default` on the first. -/
theorem single_default_invariant_witness :
    (∀ u, defaultCount (applyOps []
        [.save ⟨1, 7, "a", "s3", true, true, [], []⟩,
         .save ⟨2, 7, "b", "s3", true, true, [], []⟩,
         .setDefault 7 1]) u ≤ 1) ∧
    (∀ (p r : StorageProvider) (db₀ : List StorageProvider),
        p.is_default = true → r ∈ p.save db₀ → r.user = p.user →
        r.pk ≠ p.pk → r.is_default = false) :=
  single_default_invariant []
    [.save ⟨1, 7, "a", "s3", true, true, [], []⟩,
     .save ⟨2, 7, "b", "s3", true, true, [], []⟩,
     .setDefault 7 1]
    ⟨List.nodup_nil, fun u => by simp [defaultCount]⟩

/-! ## C5: missing-key validation -/

theorem except_bind_ok {ε α β : Type} (a : α) (f : α → Except ε β) :
    (Except.ok a >>= f : Except ε β) = f a := rfl

theorem except_bind_error {ε α β : Type} (e : ε) (f : α → Except ε β) :
    ((Except.error e : Except ε α) >>= f) = .error e := rfl

theorem except_map_ok {ε α β : Type} (a : α) (f : α → β) :
    ((Except.ok a : Except ε α).map f) = .ok (f a) := rfl

theorem except_map_error {ε α β : Type} (e : ε) (f : α → β) :
    ((Except.error e : Except ε α).map f) = .error e := rfl

/-- **C5 counterexample**: at the claim's own example — S3 with config
`{bucket}` only and empty credentials — neither code path fails with an
error enumerating exactly `access_key_id, secret_access_key`: the
backend constructor raises `KeyError("access_key_id")` (first missing
key only), and the serializer skips credential validation for an empty
credentials map and instead reports the missing config key `region`. -/
theorem missing_keys_enumeration_counterexample :
    S3Backend.init [] [("bucket", CVal.str "b")]
        = .error (.keyError "access_key_id") ∧
    serializerValidate (some "s3") [] [("bucket", CVal.str "b")]
        = .error (.validationError "config" ["region"]) ∧
    PyError.keyError "access_key_id"
        ≠ .validationError "credentials" ["access_key_id", "secret_access_key"] ∧
    PyError.validationError "config" ["region"]
        ≠ .validationError "credentials" ["access_key_id", "secret_access_key"] :=
  ⟨rfl, rfl, by decide, by decide⟩

/-- **C5 amended**: enumeration of missing keys lives in the
serializer, not in backend construction.  (a) `S3Backend.__init__` with
`bucket` present and `access_key_id` absent fails with
`KeyError("access_key_id")` alone; (b) for a non-empty submitted
credentials map, `StorageProviderSerializer.validate` fails listing
exactly the missing required credential keys; (c) with empty credentials
and config `{bucket}`, the serializer reports the missing config key
`region` (the serializer requires `region` for S3); (d) at the backend,
`region` is optional and defaults to `us-east-1`. -/
theorem missing_keys_validation_amended :
    (∀ (credentials config : Dict) (v : CVal),
        dget config "bucket" = some v →
        dget credentials "access_key_id" = none →
        S3Backend.init credentials config = .error (.keyError "access_key_id")) ∧
    (∀ (credentials config : Dict),
        credentials ≠ [] →
        (["access_key_id", "secret_access_key"].filter
            fun c => (dget credentials c).isNone) ≠ [] →
        serializerValidate (some "s3") credentials config
          = .error (.validationError "credentials"
              (["access_key_id", "secret_access_key"].filter
                fun c => (dget credentials c).isNone))) ∧
    (serializerValidate (some "s3") [] [("bucket", CVal.str "b")]
        = .error (.validationError "config" ["region"])) ∧
    (∀ (credentials config : Dict) (b ak sk : CVal),
        dget config "bucket" = some b →
        dget config "region" = none →
        dget credentials "access_key_id" = some ak →
        dget credentials "secret_access_key" = some sk →
        S3Backend.init credentials config
          = .ok ⟨b, .str "us-east-1", ak, sk⟩) := by
  refine ⟨?_, ?_, rfl, ?_⟩
  · intro credentials config v hb hak
    simp [S3Backend.init, ditem, hb, hak, except_bind_ok, except_bind_error]
  · intro credentials config hne hmiss
    simp [serializerValidate, requiredKeys, hne, hmiss]
  · intro credentials config b ak sk hb hr hak hsk
    simp [S3Backend.init, ditem, dgetD, hb, hr, hak, hsk, except_bind_ok]

/-- Witness for the amended C5 at concrete inputs. -/
theorem missing_keys_validation_amended_witness :
    S3Backend.init [("x", CVal.str "y")] [("bucket", CVal.str "b")]
        = .error (.keyError "access_key_id") ∧
    serializerValidate (some "s3") [("x", CVal.str "y")] []
        = .error (.validationError "credentials"
            ["access_key_id", "secret_access_key"]) ∧
    S3Backend.init
        [("access_key_id", CVal.str "A"), ("secret_access_key", CVal.str "S")]
        [("bucket", CVal.str "b")]
        = .ok ⟨.str "b", .str "us-east-1", .str "A", .str "S"⟩ :=
  ⟨missing_keys_validation_amended.1 [("x", CVal.str "y")]
      [("bucket", CVal.str "b")] (.str "b") rfl rfl,
    missing_keys_validation_amended.2.1 [("x", CVal.str "y")] []
      (by decide) (by decide),
    missing_keys_validation_amended.2.2.2
      [("access_key_id", CVal.str "A"), ("secret_access_key", CVal.str "S")]
      [("bucket", CVal.str "b")] (.str "b") (.str "A") (.str "S")
      rfl rfl rfl rfl⟩

/-! ## C6: the backend factory -/

/-- **C6**: `get_storage_backend` decrypts the credentials and
dispatches on `provider_type`: each of `s3`, `azure`, `gcs`, `sftp`
constructs the matching backend variant from the decrypted credentials
and the record's config, and every other type fails with the
unsupported-provider error. -/
theorem get_storage_backend_dispatch (key : Option String) (srv : SFTPServer)
    (p : StorageProvider) (creds : Dict)
    (hc : get_credentials key p.encrypted_credentials = .ok creds) :
    (p.provider_type = "s3" →
        get_storage_backend key srv p = (S3Backend.init creds p.config).map .s3) ∧
    (p.provider_type = "azure" →
        get_storage_backend key srv p
          = (AzureBlobBackend.init creds p.config).map .azure) ∧
    (p.provider_type = "gcs" →
        get_storage_backend key srv p = (GCSBackend.init creds p.config).map .gcs) ∧
    (p.provider_type = "sftp" →
        get_storage_backend key srv p
          = (SFTPBackend.init creds p.config srv).map .sftp) ∧
    (p.provider_type ∉ ["s3", "azure", "gcs", "sftp"] →
        get_storage_backend key srv p
          = .error (.valueError ("Unsupported storage provider: "
              ++ p.provider_type))) := by
  refine ⟨?_, ?_, ?_, ?_, ?_⟩ <;> intro ht
  · simp [get_storage_backend, hc, ht, except_bind_ok]
  · simp [get_storage_backend, hc, ht, except_bind_ok]
  · simp [get_storage_backend, hc, ht, except_bind_ok]
  · simp [get_storage_backend, hc, ht, except_bind_ok]
  · simp only [List.mem_cons, List.mem_singleton, not_or] at ht
    obtain ⟨h1, h2, h3, h4⟩ := ht
    simp only [get_storage_backend, hc, except_bind_ok]
    split
    · next heq => exact absurd heq h1
    · next heq => exact absurd heq h2
    · next heq => exact absurd heq h3
    · next heq => exact absurd heq h4.1
    · rfl

/-- Witness for C6 at a concrete S3 provider record. -/
theorem get_storage_backend_dispatch_witness :
    ((⟨1, 7, "n", "s3", false, true, [("bucket", CVal.str "b")],
        fernetEncrypt "k" (dumps [("a", CVal.str "b")])⟩ :
          StorageProvider).provider_type = "s3" →
      get_storage_backend (some "k") ⟨[], [], true⟩
          ⟨1, 7, "n", "s3", false, true, [("bucket", CVal.str "b")],
            fernetEncrypt "k" (dumps [("a", CVal.str "b")])⟩
        = (S3Backend.init [("a", CVal.str "b")]
            [("bucket", CVal.str "b")]).map .s3) ∧
    ((⟨1, 7, "n", "s3", false, true, [("bucket", CVal.str "b")],
        fernetEncrypt "k" (dumps [("a", CVal.str "b")])⟩ :
          StorageProvider).provider_type = "azure" →
      get_storage_backend (some "k") ⟨[], [], true⟩
          ⟨1, 7, "n", "s3", false, true, [("bucket", CVal.str "b")],
            fernetEncrypt "k" (dumps [("a", CVal.str "b")])⟩
        = (AzureBlobBackend.init [("a", CVal.str "b")]
            [("bucket", CVal.str "b")]).map .azure) ∧
    ((⟨1, 7, "n", "s3", false, true, [("bucket", CVal.str "b")],
        fernetEncrypt "k" (dumps [("a", CVal.str "b")])⟩ :
          StorageProvider).provider_type = "gcs" →
      get_storage_backend (some "k") ⟨[], [], true⟩
          ⟨1, 7, "n", "s3", false, true, [("bucket", CVal.str "b")],
            fernetEncrypt "k" (dumps [("a", CVal.str "b")])⟩
        = (GCSBackend.init [("a", CVal.str "b")]
            [("bucket", CVal.str "b")]).map .gcs) ∧
    ((⟨1, 7, "n", "s3", false, true, [("bucket", CVal.str "b")],
        fernetEncrypt "k" (dumps [("a", CVal.str "b")])⟩ :
          StorageProvider).provider_type = "sftp" →
      get_storage_backend (some "k") ⟨[], [], true⟩
          ⟨1, 7, "n", "s3", false, true, [("bucket", CVal.str "b")],
            fernetEncrypt "k" (dumps [("a", CVal.str "b")])⟩
        = (SFTPBackend.init [("a", CVal.str "b")]
            [("bucket", CVal.str "b")] ⟨[], [], true⟩).map .sftp) ∧
    ((⟨1, 7, "n", "s3", false, true, [("bucket", CVal.str "b")],
        fernetEncrypt "k" (dumps [("a", CVal.str "b")])⟩ :
          StorageProvider).provider_type ∉ ["s3", "azure", "gcs", "sftp"] →
      get_storage_backend (some "k") ⟨[], [], true⟩
          ⟨1, 7, "n", "s3", false, true, [("bucket", CVal.str "b")],
            fernetEncrypt "k" (dumps [("a", CVal.str "b")])⟩
        = .error (.valueError ("Unsupported storage provider: " ++ "s3"))) :=
  get_storage_backend_dispatch (some "k") ⟨[], [], true⟩
    ⟨1, 7, "n", "s3", false, true, [("bucket", CVal.str "b")],
      fernetEncrypt "k" (dumps [("a", CVal.str "b")])⟩
    [("a", CVal.str "b")] (by rfl)

/-! ## C7: `exists` behavior -/

theorem foldl_mkdirStep_connOk (l : List String) (srv : SFTPServer) :
    (l.foldl mkdirStep srv).connOk = srv.connOk := by
  induction l generalizing srv with
  | nil => rfl
  | cons d t ih =>
      rw [List.foldl_cons, ih]
      unfold mkdirStep
      split <;> rfl

theorem sftpMkdirP_connOk (srv : SFTPServer) (d : String) :
    (sftpMkdirP srv d).connOk = srv.connOk := by
  unfold sftpMkdirP
  split
  · rfl
  · exact foldl_mkdirStep_connOk _ srv

theorem sftp_exists_after_cons (b : SFTPBackend) (s : SFTPServer)
    (data : List Nat) (p : String) (hcon : s.connOk = true) :
    SFTPBackend.exists b
      { s with files := (ospJoin (cvStr b.remote_path) p, data) :: s.files } p
      = .ok true := by
  simp [SFTPBackend.exists, hcon, sftpStat, lookupBytes]

/-- **C7 counterexample**: `S3Backend.exists` converts a
connectivity/auth failure into a `false` return instead of raising: with
the endpoint unreachable (and the object actually present),
`head_object` fails with the connectivity error, yet `exists` returns
`false`. -/
theorem s3_exists_connectivity_counterexample :
    head_object ⟨[("q", [1])], false⟩ "q" = .error .connectivityError ∧
    S3Backend.exists ⟨[("q", [1])], false⟩ "q" = false :=
  ⟨rfl, rfl⟩

/-- **C7 amended**: for every variant, `exists` returns false (without
raising) for a never-written path and true immediately after a
successful upload; SFTP, Azure and GCS propagate connectivity failures —
but `S3Backend.exists` (bare `except:`) returns false on connectivity
failures too instead of raising. -/
theorem exists_behavior_amended :
    (∀ (c : S3Client) (p : String), c.connOk = true →
        lookupBytes c.objects p = none → S3Backend.exists c p = false) ∧
    (∀ (c : S3Client) (data : List Nat) (p : String) (c' : S3Client)
        (ret : String), S3Backend.upload c data p = .ok (c', ret) →
        S3Backend.exists c' p = true) ∧
    (∀ (c : S3Client) (p : String), c.connOk = false →
        S3Backend.exists c p = false) ∧
    (∀ (b : SFTPBackend) (srv : SFTPServer) (p : String),
        srv.connOk = true →
        lookupBytes srv.files (ospJoin (cvStr b.remote_path) p) = none →
        srv.dirs.contains (ospJoin (cvStr b.remote_path) p) = false →
        SFTPBackend.exists b srv p = .ok false) ∧
    (∀ (b : SFTPBackend) (srv : SFTPServer) (data : List Nat) (p : String)
        (srv' : SFTPServer) (ret : String),
        SFTPBackend.upload b srv data p = .ok (srv', ret) →
        SFTPBackend.exists b srv' p = .ok true) ∧
    (∀ (b : SFTPBackend) (srv : SFTPServer) (p : String),
        srv.connOk = false →
        SFTPBackend.exists b srv p = .error .connectivityError) ∧
    (∀ (c : AzureClient) (p : String), c.connOk = true →
        lookupBytes c.blobs p = none → AzureBlobBackend.exists c p = .ok false) ∧
    (∀ (c : AzureClient) (data : List Nat) (p : String) (c' : AzureClient)
        (ret : String), AzureBlobBackend.upload c data p = .ok (c', ret) →
        AzureBlobBackend.exists c' p = .ok true) ∧
    (∀ (c : AzureClient) (p : String), c.connOk = false →
        AzureBlobBackend.exists c p = .error .connectivityError) ∧
    (∀ (c : GCSClient) (p : String), c.connOk = true →
        lookupBytes c.blobs p = none → GCSBackend.exists c p = .ok false) ∧
    (∀ (c : GCSClient) (data : List Nat) (p : String) (c' : GCSClient)
        (ret : String), GCSBackend.upload c data p = .ok (c', ret) →
        GCSBackend.exists c' p = .ok true) ∧
    (∀ (c : GCSClient) (p : String), c.connOk = false →
        GCSBackend.exists c p = .error .connectivityError) := by
  refine ⟨?_, ?_, ?_, ?_, ?_, ?_, ?_, ?_, ?_, ?_, ?_, ?_⟩
  · intro c p h1 h2
    simp [S3Backend.exists, head_object, h1, h2]
  · intro c data p c' ret hup
    cases hcon : c.connOk
    · exfalso
      simp [S3Backend.upload, upload_fileobj, hcon, except_map_error] at hup
    · simp only [S3Backend.upload, upload_fileobj, hcon, if_true,
        except_map_ok, Except.ok.injEq, Prod.mk.injEq] at hup
      obtain ⟨hc', _⟩ := hup
      subst hc'
      simp [S3Backend.exists, head_object, hcon, lookupBytes]
  · intro c p h1
    simp [S3Backend.exists, head_object, h1]
  · intro b srv p h1 h2 h3
    have h3' : ospJoin (cvStr b.remote_path) p ∉ srv.dirs := by
      simpa using h3
    simp [SFTPBackend.exists, h1, sftpStat, h2, h3']
  · intro b srv data p srv' ret hup
    cases hcon : srv.connOk
    · exfalso
      simp [SFTPBackend.upload, hcon] at hup
    · simp only [SFTPBackend.upload, hcon, if_true, Except.ok.injEq,
        Prod.mk.injEq] at hup
      obtain ⟨hsrv', _⟩ := hup
      have hcon₁ : (match sftpStat srv (dirname (ospJoin (cvStr b.remote_path) p)) with
          | .ok _ => srv
          | .error _ => sftpMkdirP srv (dirname (ospJoin (cvStr b.remote_path) p))).connOk
          = true := by
        split
        · exact hcon
        · rw [sftpMkdirP_connOk]
          exact hcon
      rw [← hsrv']
      exact sftp_exists_after_cons b _ data p hcon₁
  · intro b srv p h1
    simp [SFTPBackend.exists, h1]
  · intro c p h1 h2
    simp [AzureBlobBackend.exists, h1, h2]
  · intro c data p c' ret hup
    cases hcon : c.connOk
    · exfalso
      simp [AzureBlobBackend.upload, hcon] at hup
    · simp only [AzureBlobBackend.upload, hcon, if_true, Except.ok.injEq,
        Prod.mk.injEq] at hup
      obtain ⟨hc', _⟩ := hup
      subst hc'
      simp [AzureBlobBackend.exists, hcon, lookupBytes]
  · intro c p h1
    simp [AzureBlobBackend.exists, h1]
  · intro c p h1 h2
    simp [GCSBackend.exists, h1, h2]
  · intro c data p c' ret hup
    cases hcon : c.connOk
    · exfalso
      simp [GCSBackend.upload, hcon] at hup
    · simp only [GCSBackend.upload, hcon, if_true, Except.ok.injEq,
        Prod.mk.injEq] at hup
      obtain ⟨hc', _⟩ := hup
      subst hc'
      simp [GCSBackend.exists, hcon, lookupBytes]
  · intro c p h1
    simp [GCSBackend.exists, h1]

/-- Witness for the amended C7 at concrete client states. -/
theorem exists_behavior_amended_witness :
    S3Backend.exists ⟨[], true⟩ "x" = false ∧
    S3Backend.exists ⟨[("x", [1])], true⟩ "x" = true ∧
    S3Backend.exists ⟨[], false⟩ "x" = false ∧
    SFTPBackend.exists
      ⟨.str "h", .str "u", some (.str "pw"), none, .num 22, .str "/srv"⟩
      ⟨[], [], true⟩ "x" = .ok false ∧
    SFTPBackend.exists
      ⟨.str "h", .str "u", some (.str "pw"), none, .num 22, .str "/srv"⟩
      ⟨[("/srv/x", [1])], ["/srv"], true⟩ "x" = .ok true ∧
    SFTPBackend.exists
      ⟨.str "h", .str "u", some (.str "pw"), none, .num 22, .str "/srv"⟩
      ⟨[], [], false⟩ "x" = .error .connectivityError ∧
    AzureBlobBackend.exists ⟨[], true⟩ "x" = .ok false ∧
    AzureBlobBackend.exists ⟨[("x", [1])], true⟩ "x" = .ok true ∧
    AzureBlobBackend.exists ⟨[], false⟩ "x" = .error .connectivityError ∧
    GCSBackend.exists ⟨[], true⟩ "x" = .ok false ∧
    GCSBackend.exists ⟨[("x", [1])], true⟩ "x" = .ok true ∧
    GCSBackend.exists ⟨[], false⟩ "x" = .error .connectivityError :=
  ⟨exists_behavior_amended.1 ⟨[], true⟩ "x" rfl rfl,
    exists_behavior_amended.2.1 ⟨[], true⟩ [1] "x" ⟨[("x", [1])], true⟩ "x" rfl,
    exists_behavior_amended.2.2.1 ⟨[], false⟩ "x" rfl,
    exists_behavior_amended.2.2.2.1
      ⟨.str "h", .str "u", some (.str "pw"), none, .num 22, .str "/srv"⟩
      ⟨[], [], true⟩ "x" rfl rfl rfl,
    exists_behavior_amended.2.2.2.2.1
      ⟨.str "h", .str "u", some (.str "pw"), none, .num 22, .str "/srv"⟩
      ⟨[], [], true⟩ [1] "x" ⟨[("/srv/x", [1])], ["/srv"], true⟩ "x" (by decide),
    exists_behavior_amended.2.2.2.2.2.1
      ⟨.str "h", .str "u", some (.str "pw"), none, .num 22, .str "/srv"⟩
      ⟨[], [], false⟩ "x" rfl,
    exists_behavior_amended.2.2.2.2.2.2.1 ⟨[], true⟩ "x" rfl rfl,
    exists_behavior_amended.2.2.2.2.2.2.2.1 ⟨[], true⟩ [1] "x"
      ⟨[("x", [1])], true⟩ "x" rfl,
    exists_behavior_amended.2.2.2.2.2.2.2.2.1 ⟨[], false⟩ "x" rfl,
    exists_behavior_amended.2.2.2.2.2.2.2.2.2.1 ⟨[], true⟩ "x" rfl rfl,
    exists_behavior_amended.2.2.2.2.2.2.2.2.2.2.1 ⟨[], true⟩ [1] "x"
      ⟨[("x", [1])], true⟩ "x" rfl,
    exists_behavior_amended.2.2.2.2.2.2.2.2.2.2.2 ⟨[], false⟩ "x" rfl⟩

/-! ## C8, C9, C10: upload/delete orchestration -/

/-- **C8**: deleting an image whose backend delete raises still removes
the database row, logs the storage error and responds 204; whereas an
upload whose backend upload raises creates no `Image` row and the
request fails with a 500. -/
theorem delete_best_effort_upload_blocking :
    (∀ (deleteResult : Except PyError Unit) (db : List ImageRec)
        (img : ImageRec),
        (imageDestroy deleteResult db img).status = 204 ∧
        (imageDestroy deleteResult db img).db = db.erase img ∧
        (∀ e, deleteResult = .error e →
            (imageDestroy deleteResult db img).loggedError = some e)) ∧
    (∀ (userId providerPk : Nat) (image_file : List Nat)
        (filename content_type : String) (optimize : Bool)
        (tags : List String) (optFn : List Nat → List Nat × Dict)
        (imgWidth imgHeight : Nat) (ts uid : String) (year month : Nat)
        (uploadResult : String → List Nat → Except PyError String)
        (e : PyError),
        (∀ path file, uploadResult path file = .error e) →
        (imageCreate userId providerPk image_file filename content_type
            optimize tags optFn imgWidth imgHeight ts uid year month
            uploadResult).record = none ∧
        (imageCreate userId providerPk image_file filename content_type
            optimize tags optFn imgWidth imgHeight ts uid year month
            uploadResult).status = 500) := by
  constructor
  · intro deleteResult db img
    refine ⟨rfl, rfl, ?_⟩
    intro e he
    simp [imageDestroy, he]
  · intro userId providerPk image_file filename content_type optimize tags
      optFn imgWidth imgHeight ts uid year month uploadResult e herr
    cases optimize with
    | false => simp [imageCreate, imageCreateFinish, herr]
    | true =>
        by_cases h0 : image_file.length = 0
        · simp [imageCreate, h0]
        · simp [imageCreate, imageCreateFinish, h0, herr]

/-- Witness for C8: a connectivity failure on delete, and an
always-failing upload. -/
theorem delete_best_effort_upload_blocking_witness :
    ((imageDestroy (.error .connectivityError) [] ⟨7, 1, "a.jpg", 3,
        "image/jpeg", "p", none, none, false, none, none, [], []⟩).status = 204 ∧
      (imageDestroy (.error .connectivityError) [] ⟨7, 1, "a.jpg", 3,
        "image/jpeg", "p", none, none, false, none, none, [], []⟩).db
        = List.erase [] ⟨7, 1, "a.jpg", 3, "image/jpeg", "p", none, none,
            false, none, none, [], []⟩ ∧
      (∀ e, (Except.error PyError.connectivityError : Except PyError Unit)
          = .error e →
        (imageDestroy (.error .connectivityError) [] ⟨7, 1, "a.jpg", 3,
          "image/jpeg", "p", none, none, false, none, none, [], []⟩).loggedError
          = some e)) ∧
    ((imageCreate 7 1 [0] "a.jpg" "image/jpeg" true [] (fun l => (l, []))
        1 1 "t" "u" 2024 5 (fun _ _ => .error .connectivityError)).record
          = none ∧
      (imageCreate 7 1 [0] "a.jpg" "image/jpeg" true [] (fun l => (l, []))
        1 1 "t" "u" 2024 5 (fun _ _ => .error .connectivityError)).status
          = 500) :=
  ⟨delete_best_effort_upload_blocking.1 (.error .connectivityError) []
      ⟨7, 1, "a.jpg", 3, "image/jpeg", "p", none, none, false, none, none,
        [], []⟩,
    delete_best_effort_upload_blocking.2 7 1 [0] "a.jpg" "image/jpeg" true []
      (fun l => (l, [])) 1 1 "t" "u" 2024 5
      (fun _ _ => .error .connectivityError) .connectivityError
      (fun _ _ => rfl)⟩

/-- **C9 counterexample**: an optimizing upload whose optimizer enlarges
the file (10 bytes in, 20 bytes out) succeeds with HTTP 201, yet the
stored record has `optimized_size` (20) greater than `file_size` (10)
and a negative `optimization_percentage` (−100), refuting
`optimized_size ≤ original file_size` and `optimization_percentage ≥ 0`
as stated. -/
theorem optimization_percentage_negative_counterexample :
    (imageCreate 7 1 [0, 0, 0, 0, 0, 0, 0, 0, 0, 0] "a.jpg" "image/jpeg"
        true [] (fun _ => (List.replicate 20 0, [])) 100 100 "t" "u" 2024 5
        (fun path _ => .ok path)).status = 201 ∧
    (imageCreate 7 1 [0, 0, 0, 0, 0, 0, 0, 0, 0, 0] "a.jpg" "image/jpeg"
        true [] (fun _ => (List.replicate 20 0, [])) 100 100 "t" "u" 2024 5
        (fun path _ => .ok path)).record
      = some ⟨7, 1, "a.jpg", 10, "image/jpeg", "user_7/2024/05/t_u.jpg",
          some 100, some 100, true, some 20, some (-100), [], []⟩ ∧
    ((-100 : Rat) < 0 ∧ ¬(20 ≤ 10)) := by
  refine ⟨rfl, ?_, by norm_num⟩
  have hpath : generate_storage_path 7 "a.jpg" "t" "u" 2024 5
      = "user_7/2024/05/t_u.jpg" := by decide
  simp [imageCreate, imageCreateFinish, hpath]
  norm_num

/-- **C9 amended**: a successful optimizing upload stores
`is_optimized = true`, the generated storage path, the optimizer
output's size, and `optimization_percentage` computed as
`((original − optimized) / original) · 100` — which is nonnegative
exactly when the optimizer did not enlarge the file (the code does not
clamp it, so it is negative when optimization increases file size). -/
theorem optimized_upload_record_amended (userId providerPk : Nat)
    (image_file : List Nat) (filename content_type : String)
    (tags : List String) (optFn : List Nat → List Nat × Dict)
    (imgWidth imgHeight : Nat) (ts uid : String) (year month : Nat)
    (uploadResult : String → List Nat → Except PyError String)
    (hsize : image_file.length ≠ 0)
    (hok : ∀ path file, uploadResult path file = .ok path) :
    (imageCreate userId providerPk image_file filename content_type true
        tags optFn imgWidth imgHeight ts uid year month uploadResult).status
      = 201 ∧
    (imageCreate userId providerPk image_file filename content_type true
        tags optFn imgWidth imgHeight ts uid year month uploadResult).record
      = some
        { user := userId
          storage_provider_pk := providerPk
          original_filename := filename
          file_size := image_file.length
          content_type := content_type
          storage_path := generate_storage_path userId filename ts uid year month
          width := some imgWidth
          height := some imgHeight
          is_optimized := true
          optimized_size := some (optFn image_file).1.length
          optimization_percentage := some
            (((image_file.length : Rat) - ((optFn image_file).1.length : Rat))
              / (image_file.length : Rat) * 100)
          tags := tags
          metadata := (optFn image_file).2 } ∧
    ((optFn image_file).1.length ≤ image_file.length →
      0 ≤ ((image_file.length : Rat) - ((optFn image_file).1.length : Rat))
            / (image_file.length : Rat) * 100) := by
  refine ⟨?_, ?_, ?_⟩
  · simp [imageCreate, imageCreateFinish, hsize, hok]
  · simp [imageCreate, imageCreateFinish, hsize, hok]
  · intro hle
    apply mul_nonneg
    · apply div_nonneg
      · rw [sub_nonneg]
        exact_mod_cast hle
      · positivity
    · norm_num

/-- Witness for the amended C9: a 2-byte file optimized to 1 byte. -/
theorem optimized_upload_record_amended_witness :
    (imageCreate 7 1 [0, 0] "a.jpg" "image/jpeg" true []
        (fun _ => ([0], [])) 2 2 "t" "u" 2024 5 (fun path _ => .ok path)).status
      = 201 ∧
    (imageCreate 7 1 [0, 0] "a.jpg" "image/jpeg" true []
        (fun _ => ([0], [])) 2 2 "t" "u" 2024 5 (fun path _ => .ok path)).record
      = some
        { user := 7
          storage_provider_pk := 1
          original_filename := "a.jpg"
          file_size := ([0, 0] : List Nat).length
          content_type := "image/jpeg"
          storage_path := generate_storage_path 7 "a.jpg" "t" "u" 2024 5
          width := some 2
          height := some 2
          is_optimized := true
          optimized_size := some ((fun (_ : List Nat) => (([0] : List Nat), ([] : Dict))) [0, 0]).1.length
          optimization_percentage := some
            (((([0, 0] : List Nat).length : Rat)
                - (((fun (_ : List Nat) => (([0] : List Nat), ([] : Dict))) [0, 0]).1.length : Rat))
              / (([0, 0] : List Nat).length : Rat) * 100)
          tags := []
          metadata := ((fun (_ : List Nat) => (([0] : List Nat), ([] : Dict))) [0, 0]).2 } ∧
    (((fun (_ : List Nat) => (([0] : List Nat), ([] : Dict))) [0, 0]).1.length
        ≤ ([0, 0] : List Nat).length →
      0 ≤ ((([0, 0] : List Nat).length : Rat)
            - (((fun (_ : List Nat) => (([0] : List Nat), ([] : Dict))) [0, 0]).1.length : Rat))
          / (([0, 0] : List Nat).length : Rat) * 100) :=
  optimized_upload_record_amended 7 1 [0, 0] "a.jpg" "image/jpeg" []
    (fun _ => ([0], [])) 2 2 "t" "u" 2024 5 (fun path _ => .ok path)
    (by decide) (fun _ _ => rfl)

/-- **C10**: with `optimize = false` the bytes handed to
`backend.upload` are exactly the original stream, and a successful
create stores `is_optimized = false` with `optimized_size` and
`optimization_percentage` both null. -/
theorem non_optimizing_upload_passthrough (userId providerPk : Nat)
    (image_file : List Nat) (filename content_type : String)
    (tags : List String) (optFn : List Nat → List Nat × Dict)
    (imgWidth imgHeight : Nat) (ts uid : String) (year month : Nat)
    (uploadResult : String → List Nat → Except PyError String)
    (hok : ∀ path file, uploadResult path file = .ok path) :
    (∀ (uploadResult' : String → List Nat → Except PyError String),
        (imageCreate userId providerPk image_file filename content_type false
            tags optFn imgWidth imgHeight ts uid year month
            uploadResult').uploadedBytes = some image_file) ∧
    (imageCreate userId providerPk image_file filename content_type false
        tags optFn imgWidth imgHeight ts uid year month uploadResult).status
      = 201 ∧
    (imageCreate userId providerPk image_file filename content_type false
        tags optFn imgWidth imgHeight ts uid year month uploadResult).record
      = some
        { user := userId
          storage_provider_pk := providerPk
          original_filename := filename
          file_size := image_file.length
          content_type := content_type
          storage_path := generate_storage_path userId filename ts uid year month
          width := some imgWidth
          height := some imgHeight
          is_optimized := false
          optimized_size := none
          optimization_percentage := none
          tags := tags
          metadata := [] } := by
  refine ⟨?_, ?_, ?_⟩
  · intro uploadResult'
    cases h : uploadResult' (generate_storage_path userId filename ts uid year month)
        image_file with
    | error e => simp [imageCreate, imageCreateFinish, h]
    | ok s => simp [imageCreate, imageCreateFinish, h]
  · simp [imageCreate, imageCreateFinish, hok]
  · simp [imageCreate, imageCreateFinish, hok]

/-- Witness for C10 at a concrete two-byte upload. -/
theorem non_optimizing_upload_passthrough_witness :
    (∀ (uploadResult' : String → List Nat → Except PyError String),
        (imageCreate 7 1 [3, 4] "a.jpg" "image/jpeg" false []
            (fun l => (l, [])) 2 2 "t" "u" 2024 5
            uploadResult').uploadedBytes = some [3, 4]) ∧
    (imageCreate 7 1 [3, 4] "a.jpg" "image/jpeg" false []
        (fun l => (l, [])) 2 2 "t" "u" 2024 5 (fun path _ => .ok path)).status
      = 201 ∧
    (imageCreate 7 1 [3, 4] "a.jpg" "image/jpeg" false []
        (fun l => (l, [])) 2 2 "t" "u" 2024 5 (fun path _ => .ok path)).record
      = some
        { user := 7
          storage_provider_pk := 1
          original_filename := "a.jpg"
          file_size := ([3, 4] : List Nat).length
          content_type := "image/jpeg"
          storage_path := generate_storage_path 7 "a.jpg" "t" "u" 2024 5
          width := some 2
          height := some 2
          is_optimized := false
          optimized_size := none
          optimization_percentage := none
          tags := []
          metadata := [] } :=
  non_optimizing_upload_passthrough 7 1 [3, 4] "a.jpg" "image/jpeg" []
    (fun l => (l, [])) 2 2 "t" "u" 2024 5 (fun path _ => .ok path)
    (fun _ _ => rfl)

end ImageOptimizer
